import Mathlib

/-!
Verification development for the DataSnap narrative-generation core
(`app/services/narrative_service.py`, `app/templates/narrative_templates.py`,
`app/schemas/narratives.py`, `app/api/v1/endpoints/narratives.py`).

Floats are embedded as `ℚ` (every threshold and every concrete value used
below is exactly representable and no comparison sits on a rounding
boundary).  Python dictionaries become ordered association lists, Python
`None` becomes `Option`, and the Jinja2 rendering engine (an external
library) is modelled as an explicit `render` parameter that may succeed
with a string or fail with a Python exception, exactly as the service code
observes it.  Python exceptions are modelled as values of `PyErr` carried
in `Except`.
-/

/-- Code-point comparison of character lists: the comparison Python uses on
`str` values (ASCII here), spelled out so that it is independent of any
library `Ord` instance. -/
def charListLt : List Char → List Char → Bool
  | _, [] => false
  | [], _ :: _ => true
  | a :: as, b :: bs => if a < b then true else if b < a then false else charListLt as bs

/-- Boolean prefix test on character lists (first argument is the
candidate prefix). -/
def isPrefixCL : List Char → List Char → Bool
  | [], _ => true
  | _ :: _, [] => false
  | a :: as, b :: bs => a == b && isPrefixCL as bs

/-- Substring occurrence on character lists: the needle (second argument)
occurs somewhere in the haystack (first argument). -/
def containsCL : List Char → List Char → Bool
  | [], pat => pat.isEmpty
  | h :: hs, pat => isPrefixCL pat (h :: hs) || containsCL hs pat

/-- Python `pat in s` substring membership. -/
def strContains (s pat : String) : Bool :=
  containsCL s.data pat.data

/-- Python `str.lower()` for ASCII strings. -/
def pyLower (s : String) : String :=
  String.mk (s.data.map Char.toLower)

/-- Python `str.strip()` restricted to ASCII whitespace: remove leading and
trailing whitespace characters. -/
def pyStrip (s : String) : String :=
  String.mk (((s.data.dropWhile Char.isWhitespace).reverse.dropWhile
    Char.isWhitespace).reverse)

/-- Helper for `splitLines`: Python `content.split('\n')` on character
lists, keeping empty pieces. -/
def splitLinesCL : List Char → List (List Char)
  | [] => [[]]
  | c :: cs =>
    match splitLinesCL cs with
    | [] => [[c]]
    | l :: ls => if c == '\n' then [] :: l :: ls else (c :: l) :: ls

/-- Python `content.split('\n')`. -/
def splitLines (s : String) : List String :=
  (splitLinesCL s.data).map String.mk

/-- Python `'\n'.join(lines)`. -/
def joinLines : List String → String
  | [] => ""
  | [s] => s
  | s :: rest => s ++ "\n" ++ joinLines rest

/-- Multiplication of a rational by a natural, written through `mkRat` so
that it evaluates inside the kernel (Batteries marks `Rat.mul` as
irreducible); it agrees with `x * n` definitionally on values. -/
def ratMulNat (x : ℚ) (n : ℕ) : ℚ :=
  mkRat (x.num * n) x.den

/-- Python `str.title()` restricted to ASCII letters: the first letter of
every letter-run is uppercased, the following letters lowercased, other
characters passed through. -/
def pyTitleAux : List Char → Bool → List Char
  | [], _ => []
  | c :: cs, prevAlpha =>
    (if c.isAlpha then (if prevAlpha then c.toLower else c.toUpper) else c) ::
      pyTitleAux cs c.isAlpha

/-- Python `str.title()` on a string (see `pyTitleAux`). -/
def pyTitle (s : String) : String :=
  String.mk (pyTitleAux s.data false)

/-- Python `line.strip('*')`: remove all leading and trailing asterisks. -/
def stripStars (s : String) : String :=
  String.mk (((s.data.dropWhile (fun c => c == '*')).reverse.dropWhile
    (fun c => c == '*')).reverse)

/-- Decimal digits of `n` left-padded with zeros to width `d`. -/
def natDigitsPad (n d : ℕ) : String :=
  let s := toString n
  String.mk (List.replicate (d - s.length) '0') ++ s

/-- Round `num / den` to the nearest natural number, ties to even — the
rounding used by CPython float formatting.  No value formatted in this
development sits on a tie, so the tie rule is never load-bearing. -/
def roundHalfEvenScaled (num den : ℕ) : ℕ :=
  let q := num / den
  let r := num % den
  if 2 * r < den then q
  else if den < 2 * r then q + 1
  else if q % 2 = 0 then q else q + 1

/-- Python fixed-point formatting `"%.df" % x` of a rational. -/
def formatFixed (d : ℕ) (x : ℚ) : String :=
  let ax : ℚ := |x|
  let t := roundHalfEvenScaled (ax.num.natAbs * 10 ^ d) ax.den
  (if decide (x < 0) then "-" else "") ++ toString (t / 10 ^ d) ++
    (if d = 0 then "" else "." ++ natDigitsPad (t % 10 ^ d) d)

/-- Python percent formatting `f"{x:.1%}"`. -/
def formatPercent1 (x : ℚ) : String :=
  formatFixed 1 (ratMulNat x 100) ++ "%"

/-- Helper for `commaFormat`: walks the reversed digit list inserting a
comma before every third digit. -/
def commaRevAux : List Char → ℕ → List Char
  | [], _ => []
  | c :: cs, k =>
    (if k ≠ 0 ∧ k % 3 = 0 then [','] else []) ++ c :: commaRevAux cs (k + 1)

/-- Python thousands-separator formatting `f"{n:,}"` for a natural. -/
def commaFormat (n : ℕ) : String :=
  String.mk ((commaRevAux (toString n).data.reverse 0).reverse)

/-- `NarrativeType` enum (`app/schemas/narratives.py`); only the members the
core paths construct are listed. -/
inductive NarrativeType where
  | statistical_test
  | data_summary
  | visualization
  deriving DecidableEq, Repr

/-- The `.value` string of a `NarrativeType` member. -/
def NarrativeType.value : NarrativeType → String
  | .statistical_test => "statistical_test"
  | .data_summary => "data_summary"
  | .visualization => "visualization"

/-- `GenerationMethod` enum (`app/schemas/narratives.py`). -/
inductive GenerationMethod where
  | template
  | cloud_ai
  | local_ai
  | hybrid
  deriving DecidableEq, Repr

/-- `ConfidenceLevel` enum (`app/schemas/narratives.py`). -/
inductive ConfidenceLevel where
  | high
  | medium
  | low
  | unknown
  deriving DecidableEq, Repr

/-- The `.value` string of a `ConfidenceLevel` member. -/
def ConfidenceLevel.value : ConfidenceLevel → String
  | .high => "high"
  | .medium => "medium"
  | .low => "low"
  | .unknown => "unknown"

/-- `InsightPriority` enum (`app/schemas/narratives.py`). -/
inductive InsightPriority where
  | critical
  | high
  | medium
  | low
  | info
  deriving DecidableEq, Repr

/-- The `.value` string of an `InsightPriority` member. -/
def InsightPriority.value : InsightPriority → String
  | .critical => "critical"
  | .high => "high"
  | .medium => "medium"
  | .low => "low"
  | .info => "info"

/-- A value stored in an insight's `evidence` dict: the code stores both
floats and strings there. -/
inductive EvidenceValue where
  | num (q : ℚ)
  | str (s : String)
  deriving DecidableEq, Repr

/-- `Insight` (`app/schemas/narratives.py`): defaults mirror the pydantic
field defaults. -/
structure Insight where
  title : String
  description : String
  priority : InsightPriority
  confidence : ConfidenceLevel
  evidence : List (String × EvidenceValue) := []
  recommendations : List String := []
  related_columns : List String := []
  statistical_significance : Option Bool := none
  deriving DecidableEq, Repr

/-- `NarrativeSection` (`app/schemas/narratives.py`). -/
structure NarrativeSection where
  title : String
  content : String
  insights : List Insight := []
  section_type : String
  deriving DecidableEq, Repr

/-- `NarrativeMetadata` restricted to the deterministic fields the core
sets: wall-clock timing (`generation_time_ms`, `generated_at`) and the md5
`source_data_hash` are external effects with no claim about them and are
not modelled. -/
structure NarrativeMetadata where
  generation_method : GenerationMethod
  template_version : String
  deriving DecidableEq, Repr

/-- `NarrativeResponse` (`app/schemas/narratives.py`). -/
structure NarrativeResponse where
  narrative_type : NarrativeType
  title : String
  summary : String
  content : String
  sections : List NarrativeSection
  key_insights : List Insight
  recommendations : List String
  metadata : NarrativeMetadata
  deriving DecidableEq, Repr

/-- `StatisticalTestNarrativeRequest` (`app/schemas/narratives.py`); the
unused free-form `context` / `user_preferences` dicts are omitted. -/
structure StatisticalTestNarrativeRequest where
  narrative_type : NarrativeType := .statistical_test
  generation_method : Option GenerationMethod := none
  test_name : String
  test_statistic : ℚ
  p_value : ℚ
  degrees_of_freedom : Option ℚ := none
  effect_size : Option ℚ := none
  sample_size : ℕ
  confidence_interval_lower : Option ℚ := none
  confidence_interval_upper : Option ℚ := none
  columns : List String := []
  group_statistics : List (String × ℚ) := []
  deriving DecidableEq, Repr

/-- `DataSummaryNarrativeRequest` (`app/schemas/narratives.py`); the two
nested summary dicts are carried opaquely since no core decision reads
inside them. -/
structure DataSummaryNarrativeRequest where
  narrative_type : NarrativeType := .data_summary
  generation_method : Option GenerationMethod := none
  total_rows : ℕ
  total_columns : ℕ
  missing_values : List (String × ℕ) := []
  column_types : List (String × String) := []
  outliers_detected : List (String × ℕ) := []
  data_quality_score : Option ℚ := none
  deriving DecidableEq, Repr

/-- `VisualizationNarrativeRequest` (`app/schemas/narratives.py`). -/
structure VisualizationNarrativeRequest where
  narrative_type : NarrativeType := .visualization
  generation_method : Option GenerationMethod := none
  chart_type : String
  x_column : Option String := none
  y_column : Option String := none
  grouping_column : Option String := none
  patterns_detected : List String := []
  deriving DecidableEq, Repr

/-- The `Union[StatisticalTestNarrativeRequest, DataSummaryNarrativeRequest,
VisualizationNarrativeRequest]` the service dispatches on with
`isinstance`. -/
inductive NarrativeRequest where
  | stat (r : StatisticalTestNarrativeRequest)
  | dataSummary (r : DataSummaryNarrativeRequest)
  | visualization (r : VisualizationNarrativeRequest)
  deriving DecidableEq, Repr

/-- The `narrative_type` field of the wrapped request. -/
def NarrativeRequest.narrativeType : NarrativeRequest → NarrativeType
  | .stat r => r.narrative_type
  | .dataSummary r => r.narrative_type
  | .visualization r => r.narrative_type

/-- The pydantic `generation_method` field of the wrapped request. -/
def NarrativeRequest.generationMethod : NarrativeRequest → Option GenerationMethod
  | .stat r => r.generation_method
  | .dataSummary r => r.generation_method
  | .visualization r => r.generation_method

/-- The metadata of a registered `NarrativeTemplate`
(`app/schemas/narratives.py`).  The Jinja2 `template_content` body is not
carried: its rendering is performed by the external Jinja2 engine, which is
modelled as the `render` parameter of the generation functions. -/
structure NarrativeTemplateMeta where
  template_id : String
  narrative_type : NarrativeType
  test_types : List String := []
  required_fields : List String := []
  optional_fields : List String := []
  conditions : List (String × List String) := []
  priority : ℕ := 1
  version : String := "1.0.0"
  deriving DecidableEq, Repr

/-- The `NARRATIVE_TEMPLATES` registry
(`app/templates/narrative_templates.py`, lines 286-331 and 423-431), as an
ordered association list preserving insertion order, with `data_summary`
appended last. -/
def NARRATIVE_TEMPLATES : List (String × NarrativeTemplateMeta) :=
  [("ttest",
    { template_id := "ttest_v1"
      narrative_type := .statistical_test
      test_types := ["ttest", "t-test", "independent t-test", "one-sample t-test", "paired t-test"]
      required_fields := ["test_name", "test_statistic", "p_value", "sample_size"]
      optional_fields := ["degrees_of_freedom", "effect_size", "confidence_interval_lower",
        "confidence_interval_upper", "columns", "group_statistics"]
      conditions := [("test_name", ["ttest", "t-test", "independent t-test"])]
      priority := 10 }),
   ("correlation",
    { template_id := "correlation_v1"
      narrative_type := .statistical_test
      test_types := ["correlation", "pearson", "spearman", "kendall"]
      required_fields := ["test_statistic", "p_value", "sample_size"]
      optional_fields := ["degrees_of_freedom", "columns"]
      conditions := [("test_name", ["correlation", "pearson", "spearman"])]
      priority := 10 }),
   ("anova",
    { template_id := "anova_v1"
      narrative_type := .statistical_test
      test_types := ["anova", "one-way anova", "f-test"]
      required_fields := ["test_statistic", "p_value", "sample_size"]
      optional_fields := ["degrees_of_freedom", "effect_size", "group_statistics", "columns"]
      conditions := [("test_name", ["anova", "one-way anova"])]
      priority := 10 }),
   ("chi_square",
    { template_id := "chi_square_v1"
      narrative_type := .statistical_test
      test_types := ["chi_square", "chi-square", "chi2"]
      required_fields := ["test_statistic", "p_value", "sample_size"]
      optional_fields := ["degrees_of_freedom", "effect_size", "columns", "group_statistics"]
      conditions := [("test_name", ["chi_square", "chi-square"])]
      priority := 10 }),
   ("data_summary",
    { template_id := "data_summary_v1"
      narrative_type := .data_summary
      required_fields := ["total_rows", "total_columns"]
      optional_fields := ["missing_values", "column_types", "numeric_summary",
        "categorical_summary", "outliers_detected", "data_quality_score"]
      priority := 10 })]

/-- Registry lookup `NARRATIVE_TEMPLATES[template_key]`; the fallback is
unreachable for keys produced by `_find_template_key`. -/
def templateFor (key : String) : NarrativeTemplateMeta :=
  (NARRATIVE_TEMPLATES.lookup key).getD
    { template_id := "", narrative_type := .statistical_test }

/-- `format_p_value` (`app/templates/narrative_templates.py`, lines 10-17).
The source's first two branches produce the same format string, which the
code keeps as two branches; both collapse to the same expression. -/
def format_p_value (p_value : ℚ) : String :=
  if p_value < mkRat 1 1000 then "< 0.001"
  else if p_value < mkRat 1 100 then "= " ++ formatFixed 3 p_value
  else "= " ++ formatFixed 3 p_value

/-- The t-test-family membership test inside `interpret_effect_size`:
`test_type.lower() in ['ttest', 't-test', 'independent t-test']`. -/
def isTTestFamily (test_type : String) : Bool :=
  decide (pyLower test_type ∈ ["ttest", "t-test", "independent t-test"])

/-- `interpret_effect_size` (`app/templates/narrative_templates.py`,
lines 19-36). -/
def interpret_effect_size (effect_size : ℚ) (test_type : String) : String :=
  if isTTestFamily test_type then
    if effect_size < mkRat 2 10 then "small"
    else if effect_size < mkRat 5 10 then "small to medium"
    else if effect_size < mkRat 8 10 then "medium to large"
    else "large"
  else
    if effect_size < mkRat 1 10 then "small"
    else if effect_size < mkRat 3 10 then "medium"
    else "large"

/-- `significance_statement` (`app/templates/narrative_templates.py`,
lines 38-43). -/
def significance_statement (p_value : ℚ) (alpha : ℚ := mkRat 5 100) : String :=
  if p_value < alpha then "statistically significant"
  else "not statistically significant"

/-- The Python exception classes in play along the generation paths. -/
inductive ExcClass where
  | valueError
  | templateSyntaxError
  | undefinedError
  deriving DecidableEq, Repr

/-- A raised Python exception: its class and its `str(e)` message. -/
structure PyErr where
  cls : ExcClass
  msg : String
  deriving DecidableEq, Repr

/-- The outcome the service observes from `jinja_template.render(**context)`:
either the rendered text or a raised exception.  The Jinja2 engine itself is
external to the repository, so the rendering behaviour is a parameter of the
generation functions below; everything around it is translated from
`narrative_service.py`. -/
def RenderFun : Type :=
  String → NarrativeRequest → Except PyErr String

/-- `_find_template_key` (`narrative_service.py`, lines 180-199): hardcoded
lowercase-substring dispatch on `test_name` for statistical-test requests,
the single `data_summary` key for data-summary requests, `None` otherwise.
Note that the registry's `test_types` alias lists are never consulted. -/
def findTemplateKey : NarrativeRequest → Option String
  | .stat r =>
    let test_name_lower := pyLower r.test_name
    if strContains test_name_lower "ttest" || strContains test_name_lower "t-test" then
      some "ttest"
    else if strContains test_name_lower "correlation" || strContains test_name_lower "pearson" then
      some "correlation"
    else if strContains test_name_lower "anova" then
      some "anova"
    else if strContains test_name_lower "chi" || strContains test_name_lower "chi-square" then
      some "chi_square"
    else
      none
  | .dataSummary _ => some "data_summary"
  | .visualization _ => none

/-- The helper values `_prepare_template_context` adds for statistical-test
requests (`narrative_service.py`, lines 211-216); the rest of the context is
the request's own fields verbatim.  `effect_size_interpretation` is guarded
by Python truthiness (`if request.effect_size`), under which both `None` and
`0.0` select `None`. -/
structure StatTemplateContextExtras where
  is_significant : Bool
  significance_level : String
  effect_size_interpretation : Option String
  deriving DecidableEq, Repr

/-- Builds the derived context entries of `_prepare_template_context` for a
statistical-test request (`narrative_service.py`, lines 211-216). -/
def prepareStatContextExtras (r : StatisticalTestNarrativeRequest) : StatTemplateContextExtras :=
  { is_significant := decide (r.p_value < mkRat 5 100)
    significance_level :=
      if r.p_value < mkRat 1 100 then "high" else if r.p_value < mkRat 5 100 then "medium" else "low"
    effect_size_interpretation :=
      match r.effect_size with
      | none => none
      | some e => if e = 0 then none else some (interpret_effect_size e r.test_name) }

/-- `_extract_insights_from_request` (`narrative_service.py`,
lines 220-283). -/
def extractInsightsFromRequest : NarrativeRequest → List Insight
  | .stat r =>
    (if r.p_value < mkRat 5 100 then
      [{ title := "Statistically Significant Result"
         description := "The test shows a significant result with p " ++ format_p_value r.p_value
         priority := .high
         confidence := if r.p_value < mkRat 1 100 then .high else .medium
         statistical_significance := some true
         evidence := [("p_value", .num r.p_value), ("test_statistic", .num r.test_statistic)] }]
     else []) ++
    (match r.effect_size with
     | none => []
     | some e =>
       let magnitude := interpret_effect_size e r.test_name
       [{ title := pyTitle magnitude ++ " Effect Size"
          description := "The effect size (" ++ formatFixed 3 e ++ ") indicates a " ++
            magnitude ++ " practical effect"
          priority := if mkRat 5 10 < e then .high else .medium
          confidence := .high
          evidence := [("effect_size", .num e), ("magnitude", .str magnitude)] }])
  | .dataSummary r =>
    (match r.data_quality_score with
     | none => []
     | some q =>
       if mkRat 9 10 < q then
         [{ title := "Excellent Data Quality"
            description := "Data quality score of " ++ formatPercent1 q ++
              " indicates excellent dataset readiness"
            priority := .high
            confidence := .high }]
       else if q < mkRat 5 10 then
         [{ title := "Data Quality Concerns"
            description := "Data quality score of " ++ formatPercent1 q ++
              " suggests significant preprocessing needed"
            priority := .critical
            confidence := .high
            recommendations := ["Review data collection process", "Implement data validation",
              "Consider data cleaning pipeline"] }]
       else []) ++
    (if r.missing_values.isEmpty then []
     else
       let total_missing := (r.missing_values.map Prod.snd).sum
       if 0 < total_missing then
         let missing_pct : ℚ :=
           mkRat ((total_missing * 100 : ℕ) : ℤ) (r.total_rows * r.total_columns)
         [{ title := "Missing Values Detected"
            description := toString total_missing ++ " missing values (" ++
              formatFixed 1 missing_pct ++ "% of total data)"
            priority := if 10 < missing_pct then .high else .medium
            confidence := .high
            recommendations := ["Consider imputation strategies", "Analyze missing data patterns"] }]
       else [])
  | .visualization _ => []

/-- `_classify_section_type` (`narrative_service.py`, lines 328-341). -/
def classifySectionType (title : String) : String :=
  let title_lower := pyLower title
  if ["result", "finding", "analysis"].any (fun w => strContains title_lower w) then "analysis"
  else if ["recommend", "suggest", "next"].any (fun w => strContains title_lower w) then
    "recommendations"
  else if ["interpret", "meaning", "conclusion"].any (fun w => strContains title_lower w) then
    "interpretation"
  else if ["summary", "overview", "key"].any (fun w => strContains title_lower w) then "summary"
  else "general"

/-- The insight subset attached to loop-emitted sections by
`_generate_narrative_sections`: `i.priority in [HIGH, CRITICAL]`. -/
def highCriticalInsights (insights : List Insight) : List Insight :=
  insights.filter (fun i => i.priority = .high ∨ i.priority = .critical)

/-- The stripped-line header test of `_generate_narrative_sections`:
`line.startswith('**') and line.endswith('**') and len(line) > 4`. -/
def isHeaderLine (line : String) : Bool :=
  isPrefixCL "**".data line.data && isPrefixCL "**".data.reverse line.data.reverse &&
    decide (4 < line.data.length)

/-- The line loop of `_generate_narrative_sections` (`narrative_service.py`,
lines 288-326), carried over the remaining raw lines and the current
section's title, type and accumulated content.  Sections emitted at a
header boundary carry the high/critical insight subset `fil`; the final
trailing section is emitted with an empty insight list, exactly as in the
source (line 323). -/
def sectionsAux (fil : List Insight) :
    List String → String → String → List String → List NarrativeSection
  | [], t, ty, content =>
    if content.isEmpty then []
    else [{ title := t, content := joinLines content, insights := [],
            section_type := ty }]
  | l :: rest, t, ty, content =>
    if isHeaderLine (pyStrip l) then
      if content.isEmpty then
        sectionsAux fil rest (pyStrip (stripStars (pyStrip l)))
          (classifySectionType (pyStrip (stripStars (pyStrip l)))) []
      else
        { title := t, content := joinLines content, insights := fil,
          section_type := ty } ::
          sectionsAux fil rest (pyStrip (stripStars (pyStrip l)))
            (classifySectionType (pyStrip (stripStars (pyStrip l)))) []
    else if pyStrip l = "" then sectionsAux fil rest t ty content
    else sectionsAux fil rest t ty (content ++ [pyStrip l])

/-- `_generate_narrative_sections` (`narrative_service.py`,
lines 285-326). -/
def generateNarrativeSections (content : String) (insights : List Insight) :
    List NarrativeSection :=
  sectionsAux (highCriticalInsights insights) (splitLines content) "Overview" "overview" []

/-- `_generate_title` (`narrative_service.py`, lines 343-353). -/
def generateTitle : NarrativeRequest → String
  | .stat r => r.test_name ++ " Analysis Results"
  | .dataSummary _ => "Dataset Overview and Quality Assessment"
  | .visualization r => pyTitle r.chart_type ++ " Chart Analysis"

/-- `_generate_summary` (`narrative_service.py`, lines 355-368).  The
data-summary branch guards the quality comparison with Python truthiness
(`request.data_quality_score and ...`). -/
def generateSummary : NarrativeRequest → String
  | .stat r =>
    if r.p_value < mkRat 5 100 then
      "Statistically significant results found (p " ++ format_p_value r.p_value ++ ")"
    else "No statistically significant difference detected"
  | .dataSummary r =>
    let quality :=
      match r.data_quality_score with
      | none => "good"
      | some q => if q ≠ 0 ∧ mkRat 9 10 < q then "excellent" else "good"
    "Dataset with " ++ commaFormat r.total_rows ++ " rows shows " ++ quality ++ " data quality"
  | .visualization _ => "Analysis completed successfully"

/-- `_generate_recommendations` (`narrative_service.py`, lines 370-400).
The effect-size guard is Python truthiness of the optional float:
`request.effect_size and request.effect_size > 0.5`. -/
def generateRecommendations : NarrativeRequest → List String
  | .stat r =>
    if r.p_value < mkRat 5 100 then
      ["Validate results with additional data or replication studies",
       "Consider practical significance alongside statistical significance"] ++
      (match r.effect_size with
       | none => []
       | some e =>
         if e ≠ 0 ∧ mkRat 5 10 < e then
           ["The large effect size suggests practical importance for decision-making"]
         else [])
    else
      ["Consider collecting more data to increase statistical power",
       "Review study design and measurement methods",
       "Examine whether observed trends have practical significance despite lack of statistical significance"]
  | .dataSummary r =>
    (if ¬r.missing_values.isEmpty ∧ 0 < (r.missing_values.map Prod.snd).sum then
      ["Address missing values through appropriate imputation or removal strategies"]
     else []) ++
    (if ¬r.outliers_detected.isEmpty ∧ 0 < (r.outliers_detected.map Prod.snd).sum then
      ["Investigate outliers to determine if they represent valuable insights or data errors"]
     else []) ++
    ["Proceed with statistical analysis and visualization based on research objectives"]
  | .visualization _ => []

/-- The `NarrativeResponse` constructed by `_generate_template_narrative`
on the success path (`narrative_service.py`, lines 147-160): in particular
`key_insights = insights[:5]`. -/
def buildNarrativeResponse (req : NarrativeRequest) (templateVersion content : String) :
    NarrativeResponse :=
  let insights := extractInsightsFromRequest req
  { narrative_type := req.narrativeType
    title := generateTitle req
    summary := generateSummary req
    content := content
    sections := generateNarrativeSections content insights
    key_insights := insights.take 5
    recommendations := generateRecommendations req
    metadata := { generation_method := .template, template_version := templateVersion } }

/-- The `except (TemplateSyntaxError, UndefinedError)` clause of
`_generate_template_narrative` (`narrative_service.py`, lines 164-171):
those two classes are converted to a `ValueError` carrying the
`"Error rendering template: ..."` message; any other exception class
propagates unchanged. -/
def wrapRenderException (e : PyErr) : PyErr :=
  if e.cls = .templateSyntaxError ∨ e.cls = .undefinedError then
    { cls := .valueError, msg := "Error rendering template: " ++ e.msg }
  else e

/-- `_generate_template_narrative` (`narrative_service.py`, lines 119-171).
A missing template raises `ValueError("No template found for ...")`, which
the local `except` clause does not catch; a render-time
`TemplateSyntaxError`/`UndefinedError` is caught and re-raised as a
`ValueError` (see `wrapRenderException`). -/
def generateTemplateNarrative (render : RenderFun) (req : NarrativeRequest) :
    Except PyErr NarrativeResponse :=
  match findTemplateKey req with
  | none =>
    .error { cls := .valueError, msg := "No template found for " ++ req.narrativeType.value }
  | some key =>
    match render key req with
    | .error e => .error (wrapRenderException e)
    | .ok content => .ok (buildNarrativeResponse req (templateFor key).version content)

/-- `_determine_generation_method` (`narrative_service.py`,
lines 108-117). -/
def determineGenerationMethod (req : NarrativeRequest) : GenerationMethod :=
  (req.generationMethod).getD .template

/-- The `except Exception` wrapper of `generate_narrative`
(`narrative_service.py`, lines 99-106): any failure is re-raised as
`ValueError("Failed to generate narrative: " + str(e))`. -/
def generateNarrativeCatch (x : Except PyErr NarrativeResponse) :
    Except PyErr NarrativeResponse :=
  match x with
  | .ok n => .ok n
  | .error e => .error { cls := .valueError, msg := "Failed to generate narrative: " ++ e.msg }

/-- `_generate_hybrid_narrative` (`narrative_service.py`, lines 173-178):
falls back to template generation. -/
def generateHybridNarrative (render : RenderFun) (req : NarrativeRequest) :
    Except PyErr NarrativeResponse :=
  generateTemplateNarrative render req

/-- `generate_narrative` (`narrative_service.py`, lines 66-106): the
TEMPLATE, CLOUD_AI and LOCAL_AI branches all call
`_generate_template_narrative` (the AI branches are placeholder fallbacks);
HYBRID goes through `_generate_hybrid_narrative`, which also falls back to
templates.  Wall-clock timing is an external effect and is not modelled. -/
def generateNarrative (render : RenderFun) (req : NarrativeRequest) :
    Except PyErr NarrativeResponse :=
  generateNarrativeCatch
    (match determineGenerationMethod req with
     | .hybrid => generateHybridNarrative render req
     | _ => generateTemplateNarrative render req)

/-- Every dispatch branch of `generate_narrative` reduces to the template
path. -/
theorem generateNarrative_eq_template (render : RenderFun) (req : NarrativeRequest) :
    generateNarrative render req = generateNarrativeCatch (generateTemplateNarrative render req) := by
  unfold generateNarrative generateHybridNarrative
  cases determineGenerationMethod req <;> rfl

/-- The Python sort key of the batch combine step
(`endpoints/narratives.py`, line 130): the pair of the *string* `.value`s
of the priority and confidence enums. -/
def insightSortKey (i : Insight) : String × String :=
  (i.priority.value, i.confidence.value)

/-- Python tuple-of-strings `<` on the sort keys (lexicographic, comparing
strings by code point). -/
def pyKeyLt (a b : String × String) : Bool :=
  charListLt a.1.data b.1.data || (a.1 == b.1 && charListLt a.2.data b.2.data)

/-- Stable descending insertion: `a` is placed before the first element
whose key is not strictly greater than `a`'s, so equal keys keep their
original order — the order produced by Python
`sorted(..., key=..., reverse=True)`. -/
def insertDescPy (a : Insight) : List Insight → List Insight
  | [] => [a]
  | b :: bs =>
    if pyKeyLt (insightSortKey a) (insightSortKey b) then b :: insertDescPy a bs
    else a :: b :: bs

/-- Stable sort of insights, descending on `insightSortKey`, matching
`sorted(combined_insights, key=lambda x: (x.priority.value,
x.confidence.value), reverse=True)` in `generate_batch_narratives`. -/
def sortInsightsDescPy : List Insight → List Insight
  | [] => []
  | a :: rest => insertDescPy a (sortInsightsDescPy rest)

/-- The title-deduplication loop of `generate_batch_narratives`
(`endpoints/narratives.py`, lines 126-134): keep the first occurrence of
each title in the given order. -/
def dedupByTitle : List Insight → List String → List Insight
  | [], _ => []
  | i :: rest, seen =>
    if seen.contains i.title then dedupByTitle rest seen
    else i :: dedupByTitle rest (i.title :: seen)

/-- The combine step of `generate_batch_narratives`
(`endpoints/narratives.py`, lines 124-135): sort descending on the enum
`.value` strings, deduplicate by title keeping first, truncate to 10. -/
def combineInsightsCode (l : List Insight) : List Insight :=
  (dedupByTitle (sortInsightsDescPy l) []).take 10

/-- `BatchNarrativeResponse` (`app/schemas/narratives.py`); the wall-clock
`total_generation_time_ms` sum is not modelled. -/
structure BatchNarrativeResponse where
  narratives : List NarrativeResponse
  combined_insights : List Insight
  executive_summary : Option String
  deriving DecidableEq, Repr

/-- The sequential request loop of `generate_batch_narratives`: the first
failing request's exception propagates out of the endpoint body. -/
def runBatchLoop (render : RenderFun) : List NarrativeRequest →
    Except PyErr (List NarrativeResponse)
  | [] => .ok []
  | r :: rs =>
    match generateNarrative render r with
    | .error e => .error e
    | .ok n =>
      match runBatchLoop render rs with
      | .error e => .error e
      | .ok ns => .ok (n :: ns)

/-- The executive-summary string of `generate_batch_narratives`
(`endpoints/narratives.py`, lines 138-143). -/
def executiveSummaryString (narrativeCount : ℕ) (combined : List Insight) : String :=
  "Analysis of " ++ toString narrativeCount ++ " components reveals " ++
    toString combined.length ++ " key insights. " ++
    (if combined.any (fun i => i.priority.value == "critical") then
      "Critical findings require immediate attention. "
     else "") ++
    "See detailed narratives below for complete analysis."

/-- `generate_batch_narratives` (`endpoints/narratives.py`, lines 94-150):
run the service per request in order, then optionally combine insights and
produce the executive summary. -/
def generateBatchNarratives (render : RenderFun) (requests : List NarrativeRequest)
    (combine_insights : Bool) : Except PyErr BatchNarrativeResponse :=
  match runBatchLoop render requests with
  | .error e => .error e
  | .ok narratives =>
    let gathered := if combine_insights then (narratives.map (·.key_insights)).flatten else []
    let combined := if combine_insights then combineInsightsCode gathered else []
    let executive_summary :=
      if combine_insights ∧ ¬narratives.isEmpty then
        some (executiveSummaryString narratives.length combined)
      else none
    .ok { narratives := narratives
          combined_insights := if combine_insights then combined else []
          executive_summary := executive_summary }

/-- Modelled from the spec: the priority rank under the spec's enum
ordering `info < low < medium < high < critical`. -/
def specPriorityRank : InsightPriority → ℕ
  | .info => 0
  | .low => 1
  | .medium => 2
  | .high => 3
  | .critical => 4

/-- Modelled from the spec: the confidence rank under the spec's enum
ordering `unknown < low < medium < high`. -/
def specConfidenceRank : ConfidenceLevel → ℕ
  | .unknown => 0
  | .low => 1
  | .medium => 2
  | .high => 3

/-- Modelled from the spec: the sort key `(priority, confidence)` under the
spec's enum orderings, compared lexicographically. -/
def specKeyLt (a b : Insight) : Bool :=
  specPriorityRank a.priority < specPriorityRank b.priority ||
    (specPriorityRank a.priority == specPriorityRank b.priority &&
      specConfidenceRank a.confidence < specConfidenceRank b.confidence)

/-- Modelled from the spec: stable descending insertion under the spec's
enum orderings (same shape as `insertDescPy`, different key). -/
def insertDescSpec (a : Insight) : List Insight → List Insight
  | [] => [a]
  | b :: bs => if specKeyLt a b then b :: insertDescSpec a bs else a :: b :: bs

/-- Modelled from the spec: stable descending sort under the spec's enum
orderings. -/
def sortInsightsDescSpec : List Insight → List Insight
  | [] => []
  | a :: rest => insertDescSpec a (sortInsightsDescSpec rest)

/-- Modelled from the spec: the combine step the spec describes — sort by
`(priority desc, confidence desc)` under the enum orderings, deduplicate by
title keeping the first occurrence, truncate to 10.  Kept side by side with
`combineInsightsCode` (translated from the endpoint source) to exhibit
their divergence. -/
def combineInsightsSpecModel (l : List Insight) : List Insight :=
  (dedupByTitle (sortInsightsDescSpec l) []).take 10

/-- A render behaviour that always succeeds with empty text; used to drive
the pipeline to its success path in concrete witnesses. -/
def renderOk : RenderFun := fun _ _ => .ok ""

/-- A render behaviour that raises Jinja2's `UndefinedError`, as it does
when a template directive evaluates a missing required context field. -/
def renderUndef : RenderFun := fun _ _ =>
  .error { cls := .undefinedError, msg := "value is undefined" }

/-- The statistical-test request of end-to-end scenario 1 of the spec. -/
def c2Req : StatisticalTestNarrativeRequest :=
  { test_name := "Independent T-Test", test_statistic := mkRat 347 100, p_value := mkRat 1 1000,
    degrees_of_freedom := some 98, effect_size := some (mkRat 68 100), sample_size := 100 }

/-- The narrative the pipeline produces for `c2Req` under `renderOk`. -/
def c2Nar : NarrativeResponse :=
  buildNarrativeResponse (.stat c2Req) (templateFor "ttest").version ""

/-- A statistical-test request whose `test_name` matches no template. -/
def noMatchReq : StatisticalTestNarrativeRequest :=
  { c2Req with test_name := "Mann-Whitney U" }

/-- A statistical-test request with `test_name = "spearman"`, an alias
listed in the correlation template's `test_types`. -/
def spearmanReq : StatisticalTestNarrativeRequest :=
  { c2Req with test_name := "spearman" }

/-- The data-summary request of end-to-end scenario 2 of the spec. -/
def c7Req : DataSummaryNarrativeRequest :=
  { total_rows := 1000, total_columns := 10, missing_values := [("age", 150)],
    data_quality_score := some (mkRat 45 100) }

/-- The narrative the pipeline produces for `c7Req` under `renderOk`. -/
def c7Nar : NarrativeResponse :=
  buildNarrativeResponse (.dataSummary c7Req) (templateFor "data_summary").version ""

/-- An insight titled "A" with priority high, confidence high. -/
def insightTitleAHigh : Insight :=
  { title := "A", description := "first", priority := .high, confidence := .high }

/-- An insight titled "A" with priority critical, confidence high. -/
def insightTitleACritical : Insight :=
  { title := "A", description := "second", priority := .critical, confidence := .high }

/-- The exception class surfaced to the caller, if the computation
failed. -/
def surfacedErrClass : Except PyErr NarrativeResponse → Option ExcClass
  | .error e => some e.cls
  | .ok _ => none

/-- C1: the batch combine step of `generate_batch_narratives` sorts by the
*string* values of the priority/confidence enums (`x.priority.value`), so
two same-title insights at priorities high and critical are ordered by the
alphabetical comparison of "high" and "critical": "high" sorts first in the
reversed order and survives deduplication — whereas the combine step the
spec describes (enum ordering `info < low < medium < high < critical`)
keeps the critical one.  This theorem evaluates the translated endpoint
code and the spec model at that failing input. -/
theorem C1_sort_bug_eval :
    (combineInsightsCode [insightTitleAHigh, insightTitleACritical]).map (·.priority) =
      [InsightPriority.high] ∧
    (combineInsightsSpecModel [insightTitleAHigh, insightTitleACritical]).map (·.priority) =
      [InsightPriority.critical] ∧
    combineInsightsCode [insightTitleAHigh, insightTitleACritical] ≠
      combineInsightsSpecModel [insightTitleAHigh, insightTitleACritical] := by
  refine ⟨rfl, rfl, ?_⟩
  decide

/-- C2 (counterexample): for end-to-end scenario 1 the generated narrative's
key-insight titles are `"Statistically Significant Result"` and
`"Medium To Large Effect Size"` — Python `str.title()` capitalises every
word — so no insight carries the claimed title
`"Medium to large Effect Size"`. -/
theorem C2_counterexample :
    (generateNarrative renderOk (.stat c2Req)).toOption.map
        (fun nar => nar.key_insights.map (·.title)) =
      some ["Statistically Significant Result", "Medium To Large Effect Size"] ∧
    (generateNarrative renderOk (.stat c2Req)).toOption.map
        (fun nar => nar.key_insights.any (fun i => i.title == "Medium to large Effect Size")) =
      some false := by
  exact ⟨rfl, rfl⟩

/-- C4 (counterexample): `"spearman"` is listed in the correlation
template's `test_types` alias list, yet `_find_template_key` — which tests
only hardcoded substrings and never consults `test_types` — selects no
template for a request with `test_name = "spearman"`. -/
theorem C4_counterexample :
    "spearman" ∈ (templateFor "correlation").test_types ∧
    findTemplateKey (.stat spearmanReq) = none := by
  exact ⟨by decide, rfl⟩

/-- C4 (amended): template selection lowercases `test_name` and tests the
hardcoded substrings of `_find_template_key` rather than the registry's
`test_types` alias lists; hence `"chi2"` selects `chi_square` (via the
substring `"chi"`) while the listed aliases `"spearman"`, `"kendall"` and
`"f-test"` select no template, and every data-summary request selects
exactly the `data_summary` template. -/
theorem C4_amended :
    (∀ r : DataSummaryNarrativeRequest, findTemplateKey (.dataSummary r) = some "data_summary") ∧
    findTemplateKey (.stat { spearmanReq with test_name := "chi2" }) = some "chi_square" ∧
    findTemplateKey (.stat spearmanReq) = none ∧
    findTemplateKey (.stat { spearmanReq with test_name := "kendall" }) = none ∧
    findTemplateKey (.stat { spearmanReq with test_name := "f-test" }) = none ∧
    "kendall" ∈ (templateFor "correlation").test_types ∧
    "f-test" ∈ (templateFor "anova").test_types ∧
    findTemplateKey (.stat { spearmanReq with test_name := "Independent T-Test" }) = some "ttest" ∧
    findTemplateKey (.stat { spearmanReq with test_name := "CHI2" }) = some "chi_square" := by
  exact ⟨fun r => rfl, rfl, rfl, rfl, rfl, by decide, by decide, rfl, rfl⟩

/-- C3 (counterexample): at a request matching no template and at a request
whose rendering raises Jinja2's `UndefinedError`, the exception surfaced to
the caller has the *same* class — `ValueError` — in both cases, so the two
failure kinds are not distinguishable by distinct error types. -/
theorem C3_counterexample :
    surfacedErrClass (generateNarrative renderUndef (.stat noMatchReq)) =
      some ExcClass.valueError ∧
    surfacedErrClass (generateNarrative renderUndef (.stat c2Req)) =
      some ExcClass.valueError := by
  exact ⟨rfl, rfl⟩

/-- C3 (amended): a request matching no template raises a `ValueError`
whose message reports the missing template, and a render-time
`TemplateSyntaxError`/`UndefinedError` is caught and re-raised as a
`ValueError` whose message reports the rendering error — neither failure is
silently defaulted — but both reach the caller as the same exception class
`ValueError`, distinguishable only by their message text. -/
theorem C3_amended (render : RenderFun) (req : NarrativeRequest) :
    (findTemplateKey req = none →
      generateNarrative render req =
        .error { cls := .valueError,
                 msg := "Failed to generate narrative: No template found for " ++
                   req.narrativeType.value }) ∧
    (∀ key e, findTemplateKey req = some key → render key req = .error e →
      (e.cls = .templateSyntaxError ∨ e.cls = .undefinedError) →
      generateNarrative render req =
        .error { cls := .valueError,
                 msg := "Failed to generate narrative: Error rendering template: " ++ e.msg }) := by
  rw [generateNarrative_eq_template]
  constructor
  · intro hnone
    unfold generateTemplateNarrative
    rw [hnone]
    rfl
  · intro key e hkey hrender hcls
    unfold generateTemplateNarrative
    rw [hkey]
    show generateNarrativeCatch
      (match render key req with
       | .error e => .error (wrapRenderException e)
       | .ok content => .ok (buildNarrativeResponse req (templateFor key).version content)) = _
    rw [hrender]
    show generateNarrativeCatch (.error (wrapRenderException e)) = _
    unfold wrapRenderException
    rw [if_pos hcls]
    rfl

/-- C3 (witness): the amended theorem applied at the two concrete failing
inputs of the counterexample. -/
theorem C3_amended_witness :
    generateNarrative renderUndef (.stat noMatchReq) =
      .error { cls := .valueError,
               msg := "Failed to generate narrative: No template found for statistical_test" } ∧
    generateNarrative renderUndef (.stat c2Req) =
      .error { cls := .valueError,
               msg := "Failed to generate narrative: Error rendering template: value is undefined" } := by
  constructor
  · exact (C3_amended renderUndef (.stat noMatchReq)).1 rfl
  · exact (C3_amended renderUndef (.stat c2Req)).2 "ttest"
      { cls := .undefinedError, msg := "value is undefined" } rfl rfl (Or.inr rfl)

/-- A sample high-priority insight used in the section-decomposition
counterexample and witness. -/
def c5Insight : Insight :=
  { title := "Sig", description := "sample", priority := .high, confidence := .high }

/-- Every section emitted by the section loop carries either the
high/critical subset `fil` (header-boundary sections) or the empty list
(the trailing section emitted after the loop). -/
theorem sectionsAux_mem_insights (fil : List Insight) (lines : List String) :
    ∀ t ty c s, s ∈ sectionsAux fil lines t ty c → s.insights = fil ∨ s.insights = [] := by
  induction lines with
  | nil =>
    intro t ty c s hs
    unfold sectionsAux at hs
    split at hs
    · simp at hs
    · simp at hs
      subst hs
      right
      rfl
  | cons l rest ih =>
    intro t ty c s hs
    unfold sectionsAux at hs
    split at hs
    · split at hs
      · exact ih _ _ _ _ hs
      · rcases List.mem_cons.mp hs with h | h
        · subst h
          left
          rfl
        · exact ih _ _ _ _ h
    · split at hs
      · exact ih _ _ _ _ hs
      · exact ih _ _ _ _ hs

/-- Every section except the last one in the output of the section loop
carries the high/critical subset `fil`: the empty-insight section can only
be the final one. -/
theorem sectionsAux_dropLast_insights (fil : List Insight) (lines : List String) :
    ∀ t ty c s, s ∈ (sectionsAux fil lines t ty c).dropLast → s.insights = fil := by
  induction lines with
  | nil =>
    intro t ty c s hs
    unfold sectionsAux at hs
    split at hs
    · simp at hs
    · simp at hs
  | cons l rest ih =>
    intro t ty c s hs
    unfold sectionsAux at hs
    split at hs
    · split at hs
      · exact ih _ _ _ _ hs
      · rcases heq : sectionsAux fil rest (pyStrip (stripStars (pyStrip l)))
            (classifySectionType (pyStrip (stripStars (pyStrip l)))) [] with _ | ⟨x, xs⟩
        · rw [heq] at hs
          simp at hs
        · rw [heq] at hs
          rw [List.dropLast_cons₂] at hs
          rcases List.mem_cons.mp hs with h | h
          · subst h
            rfl
          · exact ih _ _ _ _ (by rw [heq]; exact h)
    · split at hs
      · exact ih _ _ _ _ hs
      · exact ih _ _ _ _ hs

/-- C5 (counterexample): on the content `"intro\n**Results**\nbody"` with a
single high-priority insight, the decomposition yields two sections whose
insight lists are `[c5Insight]` and `[]`: the final section does *not*
carry the (non-empty) high/critical subset, refuting the claim for the
final section. -/
theorem C5_counterexample :
    (generateNarrativeSections "intro\n**Results**\nbody" [c5Insight]).map (·.insights) =
      [[c5Insight], []] ∧
    highCriticalInsights [c5Insight] = [c5Insight] ∧
    ¬ (∀ s ∈ generateNarrativeSections "intro\n**Results**\nbody" [c5Insight],
        s.insights = highCriticalInsights [c5Insight]) := by
  refine ⟨rfl, rfl, ?_⟩
  decide

/-- C5 (amended): every section produced by decomposing the rendered
content on bold-markdown header lines carries exactly the high/critical
subset of the request's extracted insights, *except* the final trailing
section, which the source emits with an empty insight list: every
non-final section carries the subset, and every section carries either the
subset or the empty list. -/
theorem C5_amended (content : String) (insights : List Insight) :
    (∀ s ∈ (generateNarrativeSections content insights).dropLast,
        s.insights = highCriticalInsights insights) ∧
    (∀ s ∈ generateNarrativeSections content insights,
        s.insights = highCriticalInsights insights ∨ s.insights = []) := by
  constructor
  · intro s hs
    exact sectionsAux_dropLast_insights _ _ _ _ _ _ hs
  · intro s hs
    exact sectionsAux_mem_insights _ _ _ _ _ _ hs

/-- C5 (witness): the amended theorem applied to the counterexample input,
showing the non-final section carries the high/critical subset. -/
theorem C5_amended_witness :
    ({ title := "Overview", content := "intro", insights := [c5Insight],
       section_type := "overview" } : NarrativeSection).insights =
      highCriticalInsights [c5Insight] :=
  (C5_amended "intro\n**Results**\nbody" [c5Insight]).1 _ (by decide)

/-- The summary of a built narrative is the synthesized summary of its
request. -/
theorem buildNarrativeResponse_summary (req : NarrativeRequest) (v c : String) :
    (buildNarrativeResponse req v c).summary = generateSummary req := rfl

/-- The key insights of a built narrative are the first five extracted
insights. -/
theorem buildNarrativeResponse_key_insights (req : NarrativeRequest) (v c : String) :
    (buildNarrativeResponse req v c).key_insights = (extractInsightsFromRequest req).take 5 := rfl

/-- A successful `generate_narrative` call always produced its result
through the template path: some template key matched and the narrative is
the one built from the rendered content. -/
theorem generateNarrative_ok_elim (render : RenderFun) (req : NarrativeRequest)
    (nar : NarrativeResponse) (hg : generateNarrative render req = .ok nar) :
    ∃ key content, findTemplateKey req = some key ∧
      nar = buildNarrativeResponse req (templateFor key).version content := by
  rw [generateNarrative_eq_template] at hg
  unfold generateTemplateNarrative at hg
  cases hk : findTemplateKey req with
  | none =>
    simp only [hk] at hg
    simp [generateNarrativeCatch] at hg
  | some key =>
    simp only [hk] at hg
    cases hr : render key req with
    | error e =>
      simp only [hr] at hg
      simp [generateNarrativeCatch] at hg
    | ok content =>
      simp only [hr] at hg
      simp only [generateNarrativeCatch, Except.ok.injEq] at hg
      exact ⟨key, content, rfl, hg.symm⟩

/-- C2 (amended): for end-to-end scenario 1 — the StatisticalTest request
with test_name "Independent T-Test", test_statistic 3.47, p_value 0.001,
degrees_of_freedom 98, effect_size 0.68, sample_size 100 — the selected
template is "ttest", the narrative summary contains "Statistically
significant", and key_insights contains the insight titled "Statistically
Significant Result" together with the effect-size insight, whose title is
"Medium To Large Effect Size" (Python title-cases every word of the
"medium to large" magnitude). -/
theorem C2_amended (render : RenderFun) (nar : NarrativeResponse)
    (hg : generateNarrative render (.stat c2Req) = .ok nar) :
    findTemplateKey (.stat c2Req) = some "ttest" ∧
    strContains nar.summary "Statistically significant" = true ∧
    nar.key_insights.map (·.title) =
      ["Statistically Significant Result", "Medium To Large Effect Size"] := by
  obtain ⟨key, content, hk, hnar⟩ := generateNarrative_ok_elim render _ nar hg
  subst hnar
  rw [buildNarrativeResponse_summary, buildNarrativeResponse_key_insights]
  exact ⟨rfl, by decide, by decide⟩

/-- C2 (witness): the amended theorem at the concrete scenario request,
with rendering succeeding. -/
theorem C2_amended_witness :
    findTemplateKey (.stat c2Req) = some "ttest" ∧
    strContains c2Nar.summary "Statistically significant" = true ∧
    c2Nar.key_insights.map (·.title) =
      ["Statistically Significant Result", "Medium To Large Effect Size"] :=
  C2_amended renderOk c2Nar rfl

/-- C6: for every statistical-test request with `p_value < 0.05` whose
generation succeeds, insight extraction emits the "Statistically
Significant Result" insight — priority high, confidence high when
`p_value < 0.01` and medium otherwise, evidence carrying the p-value and
the test statistic — and that insight appears in the narrative's
`key_insights`. -/
theorem C6_theorem (req : StatisticalTestNarrativeRequest) (render : RenderFun)
    (nar : NarrativeResponse) (hp : req.p_value < mkRat 5 100)
    (hg : generateNarrative render (.stat req) = .ok nar) :
    ∃ i, i ∈ extractInsightsFromRequest (.stat req) ∧ i ∈ nar.key_insights ∧
      i.title = "Statistically Significant Result" ∧ i.priority = .high ∧
      i.confidence = (if req.p_value < mkRat 1 100 then ConfidenceLevel.high else .medium) ∧
      ("p_value", EvidenceValue.num req.p_value) ∈ i.evidence ∧
      ("test_statistic", EvidenceValue.num req.test_statistic) ∈ i.evidence := by
  obtain ⟨key, content, hk, hnar⟩ := generateNarrative_ok_elim render _ nar hg
  subst hnar
  rw [buildNarrativeResponse_key_insights]
  refine ⟨{ title := "Statistically Significant Result",
            description := "The test shows a significant result with p " ++
              format_p_value req.p_value,
            priority := .high,
            confidence := if req.p_value < mkRat 1 100 then .high else .medium,
            statistical_significance := some true,
            evidence := [("p_value", .num req.p_value),
              ("test_statistic", .num req.test_statistic)] }, ?_, ?_, rfl, rfl, rfl, ?_, ?_⟩
  · simp only [extractInsightsFromRequest]
    rw [if_pos hp]
    exact List.mem_append_left _ (List.mem_singleton_self _)
  · simp only [extractInsightsFromRequest]
    rw [if_pos hp]
    exact List.mem_cons_self _ _
  · exact List.mem_cons_self _ _
  · exact List.mem_cons_of_mem _ (List.mem_singleton_self _)

/-- C6 (witness): the theorem applied at the scenario-1 request, whose
p-value 0.001 is below 0.05. -/
theorem C6_witness :
    ∃ i, i ∈ extractInsightsFromRequest (.stat c2Req) ∧ i ∈ c2Nar.key_insights ∧
      i.title = "Statistically Significant Result" ∧ i.priority = .high ∧
      i.confidence = (if c2Req.p_value < mkRat 1 100 then ConfidenceLevel.high else .medium) ∧
      ("p_value", EvidenceValue.num c2Req.p_value) ∈ i.evidence ∧
      ("test_statistic", EvidenceValue.num c2Req.test_statistic) ∈ i.evidence :=
  C6_theorem c2Req renderOk c2Nar (by decide) rfl

/-- C7: for end-to-end scenario 2 — the DataSummary request with
total_rows 1000, total_columns 10, missing_values mapping "age" to 150 and
data_quality_score 0.45 — the narrative's key_insights are exactly the
"Data Quality Concerns" insight (priority critical, confidence high, three
fixed remediation recommendations, because 0.45 < 0.5) and the "Missing
Values Detected" insight with priority medium, whose description carries
the missing percentage 150/(1000*10)*100 = 1.5 (and 1.5 ≤ 10 yields
priority medium). -/
theorem C7_theorem (render : RenderFun) (nar : NarrativeResponse)
    (hg : generateNarrative render (.dataSummary c7Req) = .ok nar) :
    nar.key_insights.map (fun i => (i.title, i.priority, i.confidence, i.recommendations)) =
      [("Data Quality Concerns", InsightPriority.critical, ConfidenceLevel.high,
        ["Review data collection process", "Implement data validation",
         "Consider data cleaning pipeline"]),
       ("Missing Values Detected", InsightPriority.medium, ConfidenceLevel.high,
        ["Consider imputation strategies", "Analyze missing data patterns"])] ∧
    nar.key_insights.map (·.description) =
      ["Data quality score of 45.0% suggests significant preprocessing needed",
       "150 missing values (1.5% of total data)"] := by
  obtain ⟨key, content, hk, hnar⟩ := generateNarrative_ok_elim render _ nar hg
  subst hnar
  rw [buildNarrativeResponse_key_insights]
  exact ⟨by decide, by decide⟩

/-- C7 (witness): the theorem at the concrete scenario-2 request with
rendering succeeding. -/
theorem C7_witness :
    c7Nar.key_insights.map (fun i => (i.title, i.priority, i.confidence, i.recommendations)) =
      [("Data Quality Concerns", InsightPriority.critical, ConfidenceLevel.high,
        ["Review data collection process", "Implement data validation",
         "Consider data cleaning pipeline"]),
       ("Missing Values Detected", InsightPriority.medium, ConfidenceLevel.high,
        ["Consider imputation strategies", "Analyze missing data patterns"])] ∧
    c7Nar.key_insights.map (·.description) =
      ["Data quality score of 45.0% suggests significant preprocessing needed",
       "150 missing values (1.5% of total data)"] :=
  C7_theorem renderOk c7Nar rfl

/-- C9: for every request of any variant whose generation succeeds, the
narrative's key_insights list has length at most 5
(`key_insights = insights[:5]`). -/
theorem C9_theorem (render : RenderFun) (req : NarrativeRequest) (nar : NarrativeResponse)
    (hg : generateNarrative render req = .ok nar) :
    nar.key_insights.length ≤ 5 := by
  obtain ⟨key, content, hk, hnar⟩ := generateNarrative_ok_elim render _ nar hg
  subst hnar
  rw [buildNarrativeResponse_key_insights]
  simp [List.length_take]

/-- C9 (witness): the theorem at the scenario-1 request. -/
theorem C9_witness : c2Nar.key_insights.length ≤ 5 :=
  C9_theorem renderOk (.stat c2Req) c2Nar rfl

/-- The scenario-1 request with its effect size replaced by 0.0. -/
def c10Req : StatisticalTestNarrativeRequest :=
  { c2Req with effect_size := some 0 }

/-- C10: for a statistical-test request with effect_size equal to 0.0,
insight extraction still emits an effect-size insight — titled "Small
Effect Size" with priority medium, since the extractor tests
`effect_size is not None` — while the render context's derived
`effect_size_interpretation` is `None` rather than "small", since the
context builder tests Python truthiness (`if request.effect_size`), under
which 0.0 counts as absent. -/
theorem C10_theorem (r : StatisticalTestNarrativeRequest) (h : r.effect_size = some 0) :
    (∃ i, i ∈ extractInsightsFromRequest (.stat r) ∧ i.title = "Small Effect Size" ∧
      i.priority = .medium) ∧
    (prepareStatContextExtras r).effect_size_interpretation = none := by
  have hmag : interpret_effect_size 0 r.test_name = "small" := by
    by_cases hf : isTTestFamily r.test_name = true
    · simp only [interpret_effect_size, hf, if_true]
      decide
    · simp only [interpret_effect_size, hf, if_false, Bool.false_eq_true]
      decide
  constructor
  · refine ⟨{ title := pyTitle (interpret_effect_size 0 r.test_name) ++ " Effect Size",
              description := "The effect size (" ++ formatFixed 3 0 ++ ") indicates a " ++
                interpret_effect_size 0 r.test_name ++ " practical effect",
              priority := if mkRat 5 10 < (0 : ℚ) then .high else .medium,
              confidence := .high,
              evidence := [("effect_size", .num 0),
                ("magnitude", .str (interpret_effect_size 0 r.test_name))] }, ?_, ?_, ?_⟩
    · simp only [extractInsightsFromRequest, h]
      exact List.mem_append_right _ (List.mem_singleton_self _)
    · rw [hmag]
      decide
    · simp only [show ¬((mkRat 5 10 : ℚ) < 0) from by decide, if_false]
  · simp only [prepareStatContextExtras, h]
    simp

/-- C10 (witness): the theorem at the scenario-1 request with effect size
zero. -/
theorem C10_witness :
    (∃ i, i ∈ extractInsightsFromRequest (.stat c10Req) ∧ i.title = "Small Effect Size" ∧
      i.priority = .medium) ∧
    (prepareStatContextExtras c10Req).effect_size_interpretation = none :=
  C10_theorem c10Req rfl

/-- C8: `interpret_effect_size` returns, for test names in the t-test
family (lowercased name among "ttest", "t-test", "independent t-test"):
"small" below 0.2, "small to medium" on [0.2, 0.5), "medium to large" on
[0.5, 0.8), "large" from 0.8 on; and for all other test names: "small"
below 0.1, "medium" on [0.1, 0.3), "large" from 0.3 on — in particular
`interpret_effect_size 0.15 "ttest" = "small"`,
`interpret_effect_size 0.85 "ttest" = "large"`, and
`interpret_effect_size 0.05 "anova" = "small"` (thresholds written through
`mkRat`: 0.2 is `mkRat 2 10`, and so on). -/
theorem C8_theorem (d : ℚ) (name : String) :
    (isTTestFamily name = true →
      ((d < mkRat 2 10 → interpret_effect_size d name = "small") ∧
       (mkRat 2 10 ≤ d → d < mkRat 5 10 → interpret_effect_size d name = "small to medium") ∧
       (mkRat 5 10 ≤ d → d < mkRat 8 10 → interpret_effect_size d name = "medium to large") ∧
       (mkRat 8 10 ≤ d → interpret_effect_size d name = "large"))) ∧
    (isTTestFamily name = false →
      ((d < mkRat 1 10 → interpret_effect_size d name = "small") ∧
       (mkRat 1 10 ≤ d → d < mkRat 3 10 → interpret_effect_size d name = "medium") ∧
       (mkRat 3 10 ≤ d → interpret_effect_size d name = "large"))) ∧
    interpret_effect_size (mkRat 15 100) "ttest" = "small" ∧
    interpret_effect_size (mkRat 85 100) "ttest" = "large" ∧
    interpret_effect_size (mkRat 5 100) "anova" = "small" := by
  refine ⟨?_, ?_, by decide, by decide, by decide⟩
  · intro hf
    simp only [interpret_effect_size, hf, if_true]
    refine ⟨fun h1 => ?_, fun h1 h2 => ?_, fun h1 h2 => ?_, fun h1 => ?_⟩ <;>
      split_ifs <;>
        first
          | rfl
          | linarith [show (mkRat 2 10 : ℚ) < mkRat 5 10 from by decide,
              show (mkRat 5 10 : ℚ) < mkRat 8 10 from by decide]
  · intro hf
    simp only [interpret_effect_size, hf, Bool.false_eq_true, if_false]
    refine ⟨fun h1 => ?_, fun h1 h2 => ?_, fun h1 => ?_⟩ <;>
      split_ifs <;>
        first
          | rfl
          | linarith [show (mkRat 1 10 : ℚ) < mkRat 3 10 from by decide]

/-- C8 (witness): the family branch of the theorem applied at
`d = 0.15`, `name = "ttest"`. -/
theorem C8_witness : interpret_effect_size (mkRat 15 100) "ttest" = "small" :=
  ((C8_theorem (mkRat 15 100) "ttest").1 (by decide)).1 (by decide)

/-- C4 (witness): the amended theorem's data-summary component applied at
the concrete scenario-2 request. -/
theorem C4_amended_witness : findTemplateKey (.dataSummary c7Req) = some "data_summary" :=
  C4_amended.1 c7Req
